import Mathlib

/-!
Verification development for the vocal-synthesis analysis core
(`src/services/grokService.ts`, `src/services/elevenlabs/voiceSettings.ts`,
`src/services/elevenLabsAPI.ts`).

The TypeScript sources are embedded shallowly:
* JavaScript numbers that only ever hold exact decimal values are modelled
  as `ℚ` (all arithmetic performed by the embedded code is exact on them);
* strings are Lean `String`s, with the handful of JS string/regex
  operations the code uses re-implemented on `List Char`;
* the single remote HTTP call of `analyzeTextWithGrok` is abstracted as a
  `RemoteOutcome` argument (success carries the parsed segment list,
  the three failure constructors cover non-success status, network
  failure and JSON-extraction failure).
-/

/-! ## JS string primitives used by the code -/

/-- JS whitespace (`\s`, `String.prototype.trim`) restricted to the ASCII
whitespace characters that can occur in the data handled here. -/
def isJsWs (c : Char) : Bool :=
  c = ' ' || c = '\t' || c = '\n' || c = '\r'

/-- `String.prototype.trim` on the character list: strip leading and
trailing whitespace. -/
def trimChars (l : List Char) : List Char :=
  ((l.dropWhile isJsWs).reverse.dropWhile isJsWs).reverse

/-- `text.trim()` as a `String` operation. -/
def jsTrim (s : String) : String :=
  ⟨trimChars s.data⟩

/-- Does `l` start with `p`? (Helper for JS `String.prototype.includes`.) -/
def listStartsWith : List Char → List Char → Bool
  | _, [] => true
  | [], _ :: _ => false
  | c :: rest, p :: ps => c = p && listStartsWith rest ps

/-- JS `haystack.includes(needle)`: `needle` occurs contiguously in
`haystack`. -/
def listContains : List Char → List Char → Bool
  | [], sub => sub.isEmpty
  | c :: rest, sub => listStartsWith (c :: rest) sub || listContains rest sub

/-- `s.includes(sub)` on `String`s. -/
def containsStr (s sub : String) : Bool :=
  listContains s.data sub.data

/-- Word counter for `text.trim().split(/\s+/).length`, trimmed input:
counts maximal runs of non-whitespace characters.  The `inWord` flag
records whether the previous character was part of a word. -/
def countWordsAux : List Char → Bool → ℕ
  | [], _ => 0
  | c :: rest, inWord =>
    if isJsWs c then countWordsAux rest false
    else (if inWord then 0 else 1) + countWordsAux rest true

/-- `text.trim().split(/\s+/).length`.  On a whitespace-only string the JS
split returns `['']`, hence length 1. -/
def wordCount (text : String) : ℕ :=
  let l := trimChars text.data
  if l.isEmpty then 1 else countWordsAux l false

/-! ## `calculateTiming` (grokService.ts lines 93–126) -/

/-- The three transition kinds of `EnvironmentDetection.transition.type`. -/
inductive TransitionType where
  | crossfade
  | cut
  | overlap
deriving DecidableEq, Repr

/-- Return type of `calculateTiming`. -/
structure TimingInfo where
  estimatedDuration : ℚ
  fadeIn : ℚ
  fadeOut : ℚ
  transitionType : TransitionType
  transitionDuration : ℚ
deriving DecidableEq, Repr

/-- The words-per-second lookup inside `calculateTiming`
(`très lent`=1.0, `lent`=1.5, `modéré`=2.0, default `rapide`=2.5). -/
def wordsPerSecond (speechRate : String) : ℚ :=
  if speechRate = "très lent" then 1.0
  else if speechRate = "lent" then 1.5
  else if speechRate = "modéré" then 2.0
  else 2.5

/-- `text.includes('...')`. -/
def containsEllipsis (text : String) : Bool :=
  containsStr text "..."

/-- `/[.!?]$/.test(text.trim())`: the trimmed text ends with terminal
punctuation. -/
def endsWithPunctuation (text : String) : Bool :=
  match (trimChars text.data).getLast? with
  | some c => c = '.' || c = '!' || c = '?'
  | none => false

/-- `calculateTiming` from grokService.ts: word-count based duration,
10% fades capped at 1s, transition kind from the segment's own text
(ellipsis → crossfade 1.0s, terminal punctuation → cut 0.2s,
otherwise overlap 0.5s). -/
def calculateTiming (text speechRate : String) : TimingInfo :=
  let words : ℚ := (wordCount text : ℚ)
  let wps := wordsPerSecond speechRate
  let estimatedDuration := words / wps
  let fadeIn := min 1.0 (estimatedDuration * 0.1)
  let fadeOut := min 1.0 (estimatedDuration * 0.1)
  let hasEllipsis := containsEllipsis text
  let endsP := endsWithPunctuation text
  let transitionType :=
    if hasEllipsis then TransitionType.crossfade
    else if endsP then TransitionType.cut
    else TransitionType.overlap
  let transitionDuration : ℚ :=
    if transitionType = TransitionType.crossfade then 1.0
    else if transitionType = TransitionType.overlap then 0.5
    else 0.2
  { estimatedDuration := estimatedDuration
    fadeIn := fadeIn
    fadeOut := fadeOut
    transitionType := transitionType
    transitionDuration := transitionDuration }

/-! ## Data model (interfaces of grokService.ts) -/

/-- `VocalCharacteristics` (grokService.ts lines 13–18). -/
structure VocalCharacteristics where
  intensity : ℚ
  type : String
  rhythm : String
  pitch : ℚ
deriving DecidableEq, Repr

/-- `ExpressionDetails` (grokService.ts lines 21–25); also the shape of
`EnvironmentDetection.expressionDetails`. -/
structure ExpressionDetails where
  breathing : String
  sounds : List String
  duration : ℚ
deriving DecidableEq, Repr

/-- `ElevenLabsParams` of an `EnhancedSegment` (grokService.ts lines
28–33): `speed` and `pitch_shift` are optional in the TS interface. -/
structure ElevenLabsParams where
  stability : ℚ
  similarity_boost : ℚ
  speed : Option String
  pitch_shift : Option ℚ
deriving DecidableEq, Repr

/-- `EnvironmentDetails` (grokService.ts lines 36–39). -/
structure EnvironmentDetails where
  type : String
  suggestedSound : Option String
deriving DecidableEq, Repr

/-- `EnhancedSegment`: one segment as parsed from the remote reply. -/
structure EnhancedSegment where
  text : String
  vocal : VocalCharacteristics
  expressions : ExpressionDetails
  elevenlabs : ElevenLabsParams
  environment : Option EnvironmentDetails
deriving DecidableEq, Repr

/-- `EnvironmentDetection.transition`. -/
structure Transition where
  type : TransitionType
  duration : ℚ
deriving DecidableEq, Repr

/-- The `elevenlabsParams` object built inside `analyzeTextEnvironments`
and `analyzeTextLocally`: both producers always set all four fields. -/
structure EnvElevenLabsParams where
  stability : ℚ
  similarity_boost : ℚ
  speed : String
  pitch_shift : ℚ
deriving DecidableEq, Repr

/-- `EnvironmentDetection` (grokService.ts lines 55–83).  The timing
fields are optional in TS and are `none` until the timeline pass fills
them in. -/
structure EnvironmentDetection where
  segment : String
  environment : String
  soundEffects : List String
  emotionalTone : String
  speechRate : String
  volume : String
  startTime : Option ℚ
  duration : Option ℚ
  fadeIn : Option ℚ
  fadeOut : Option ℚ
  transition : Option Transition
  elevenlabsParams : EnvElevenLabsParams
  expressionDetails : ExpressionDetails
deriving DecidableEq, Repr

/-! ## Remote adapter `analyzeTextWithGrok` (grokService.ts lines 133–275) -/

/-- Outcome of the single remote round-trip, abstracting the `fetch` call
plus the JSON-extraction chain: `ok` carries the successfully parsed
segment list; the other constructors are the failure modes (non-success
HTTP status, network error, no parseable JSON in the reply).  All three
failure modes land in the same `catch` block of the source. -/
inductive RemoteOutcome where
  | httpError (status : ℕ)
  | networkError
  | invalidFormat
  | ok (segments : List EnhancedSegment)
deriving DecidableEq, Repr

/-- Is the outcome the success case? -/
def RemoteOutcome.isSuccess : RemoteOutcome → Bool
  | RemoteOutcome.ok _ => true
  | _ => false

/-- The default segment built in the `catch` block of
`analyzeTextWithGrok` (grokService.ts lines 250–271). -/
def defaultSegment (text : String) : EnhancedSegment :=
  { text := text
    vocal := { intensity := 70, type := "normal", rhythm := "lent", pitch := -5 }
    expressions := { breathing := "légère", sounds := [], duration := 500 }
    elevenlabs := { stability := 0.65, similarity_boost := 0.8
                    speed := none, pitch_shift := none }
    environment := some { type := "chambre"
                          suggestedSound := some "mid-nights-sound-291477.mp3" } }

/-- `analyzeTextWithGrok`: on a successful remote round-trip it returns
the parsed segments; every failure is caught inside the function, which
then returns the single default segment — the error is never re-thrown. -/
def analyzeTextWithGrok (text : String) (remote : RemoteOutcome) : List EnhancedSegment :=
  match remote with
  | RemoteOutcome.ok segments => segments
  | _ => [defaultSegment text]

/-! ## Segment-text cleaning (grokService.ts lines 294–306)

Each JS `replace` call with its simple digit/dot/whitespace regex is
translated by maximal-munch directly; the character classes at each
regex boundary are disjoint (or nested), so greedy matching needs no
backtracking beyond what is noted at each definition. -/

/-- Characters of the class `[\d\.\s]`. -/
def isNumDotWs (c : Char) : Bool :=
  c.isDigit || c = '.' || isJsWs c

/-- `.replace(/^\s*\d+\.\s*/, '')`: one leading `number.` marker
(optional whitespace, digits, a dot, optional whitespace) is removed;
if the pattern does not match, the text is unchanged. -/
def stripLeadNumDot (l : List Char) : List Char :=
  let afterWs := l.dropWhile isJsWs
  let afterDs := afterWs.dropWhile Char.isDigit
  if (afterWs.takeWhile Char.isDigit).isEmpty = false ∧ afterDs.head? = some '.' then
    afterDs.tail.dropWhile isJsWs
  else l

/-- `.replace(/^\s*[\d\.\s]+/, '')`: since `\s` is contained in the
class, the greedy match consumes exactly the maximal leading run of
digit/dot/whitespace characters (a no-op when that run is empty). -/
def stripLeadNumClass (l : List Char) : List Char :=
  l.dropWhile isNumDotWs

/-- `.replace(/[\d\.\s]+\s*$/, '')`: the leftmost match ending at `$` is
the maximal trailing run of digit/dot/whitespace characters. -/
def stripTrailNumClass (l : List Char) : List Char :=
  (l.reverse.dropWhile isNumDotWs).reverse

/-- Scanner for `.replace(/\n\d+\.\s*/g, '\n')`: every newline followed
by a `number.` list marker loses the marker (the greedy trailing `\s*`
also swallows whitespace, including further newlines).  The fuel is the
scan length: at least one character is consumed per step, so starting
with `l.length` fuel the `0` case is never reached (structural recursion
on the fuel keeps the function kernel-reducible). -/
def stripListNumsGo : ℕ → List Char → List Char
  | 0, l => l
  | _ + 1, [] => []
  | fuel + 1, c :: rest =>
    if c = '\n' then
      if (rest.takeWhile Char.isDigit).isEmpty = false ∧
          (rest.dropWhile Char.isDigit).head? = some '.' then
        '\n' :: stripListNumsGo fuel (((rest.dropWhile Char.isDigit).tail).dropWhile isJsWs)
      else c :: stripListNumsGo fuel rest
    else c :: stripListNumsGo fuel rest

/-- `.replace(/\n\d+\.\s*/g, '\n')`. -/
def stripListNums (l : List Char) : List Char :=
  stripListNumsGo l.length l

/-- Scanner for `.replace(/\s+\d+\s+/g, ' ')`: an isolated number
(whitespace, digits, whitespace) collapses to a single space; scanning
resumes after the trailing whitespace of the match, as the JS global
replace does.  Fuel as in `stripListNumsGo`. -/
def stripIsolatedNumsGo : ℕ → List Char → List Char
  | 0, l => l
  | _ + 1, [] => []
  | fuel + 1, c :: rest =>
    if isJsWs c then
      if ((rest.dropWhile isJsWs).takeWhile Char.isDigit).isEmpty = false ∧
          (((rest.dropWhile isJsWs).dropWhile Char.isDigit).head?.getD 'x' |> isJsWs) = true then
        ' ' :: stripIsolatedNumsGo fuel ((((rest.dropWhile isJsWs).dropWhile Char.isDigit)).dropWhile isJsWs)
      else c :: stripIsolatedNumsGo fuel rest
    else c :: stripIsolatedNumsGo fuel rest

/-- `.replace(/\s+\d+\s+/g, ' ')`. -/
def stripIsolatedNums (l : List Char) : List Char :=
  stripIsolatedNumsGo l.length l

/-- The full cleaning chain applied to each remote segment's text
(grokService.ts lines 294–300), ending with `.trim()`. -/
def cleanSegmentText (s : String) : String :=
  ⟨trimChars (stripIsolatedNums (stripListNums (stripTrailNumClass
      (stripLeadNumClass (stripLeadNumDot s.data)))))⟩

/-- The guard after cleaning (grokService.ts lines 303–306): JS
`!cleanedText || cleanedText.length < 3` is equivalent to
`cleanedText.length < 3` since the empty string has length 0; in that
case the original text is kept. -/
def chooseSegmentText (s : String) : String :=
  let c := cleanSegmentText s
  if c.length < 3 then s else c

/-! ## Environment/sound mapper `mapEnvironmentToSounds`
(grokService.ts lines 564–609) -/

/-- The default sound list (`environmentSounds.default` in the source). -/
def defaultSounds : List String :=
  ["calm-nature-sounds-196258.mp3"]

/-- The `environmentSounds` catalog, in the source's insertion order
(which is the iteration order of `Object.entries`). -/
def environmentSounds : List (String × List String) :=
  [("plage", ["ocean-waves-112906.mp3", "sea-and-seagull-wave-5932.mp3"]),
   ("mer", ["ocean-waves-112906.mp3", "sea-wave-34088.mp3"]),
   ("océan", ["ocean-waves-112906.mp3", "sea-and-seagull-wave-5932.mp3"]),
   ("forêt", ["forest-ambience-296528.mp3", "bird-333090.mp3"]),
   ("bois", ["forest-ambience-296528.mp3", "bird-333090.mp3"]),
   ("pluie", ["light-spring-rain-nature-sounds-331710.mp3", "calm-nature-sounds-196258.mp3"]),
   ("orage", ["light-spring-rain-nature-sounds-331710.mp3", "calm-nature-sounds-196258.mp3"]),
   ("ville", ["city-ambience-9270.mp3", "opening-the-front-door-210347.mp3"]),
   ("rue", ["city-ambience-9270.mp3", "opening-the-front-door-210347.mp3"]),
   ("chambre", ["mid-nights-sound-291477.mp3", "main-door-opening-closing-38280.mp3"]),
   ("lit", ["mid-nights-sound-291477.mp3", "main-door-opening-closing-38280.mp3"]),
   ("ruisseau", ["relaxing-mountains-rivers-streams-running-water-18178.mp3", "river-26984.mp3"]),
   ("rivière", ["relaxing-mountains-rivers-streams-running-water-18178.mp3", "river-26984.mp3"]),
   ("vent", ["windy-hut-fx-64675.mp3"]),
   ("nature", ["calm-nature-sounds-196258.mp3", "bird-333090.mp3"]),
   ("porte", ["main-door-opening-closing-38280.mp3", "opening-the-front-door-210347.mp3"]),
   ("nuit", ["mid-nights-sound-291477.mp3"]),
   ("default", defaultSounds)]

/-- Diacritic stripping: `normalize("NFD").replace(/[̀-ͯ]/g, "")`
restricted to the accented characters that occur in this application's
data (French diacritics). -/
def stripDiacriticChar (c : Char) : Char :=
  if c = 'é' || c = 'è' || c = 'ê' || c = 'ë' then 'e'
  else if c = 'à' || c = 'â' || c = 'ä' then 'a'
  else if c = 'î' || c = 'ï' then 'i'
  else if c = 'ô' || c = 'ö' then 'o'
  else if c = 'ù' || c = 'û' || c = 'ü' then 'u'
  else if c = 'ç' then 'c'
  else c

/-- Replace every maximal whitespace run by a single underscore
(`.replace(/\s+/g, '_')`): the flag records whether the previous
character was inside a whitespace run already collapsed. -/
def underscoreWsAux : List Char → Bool → List Char
  | [], _ => []
  | c :: rest, inRun =>
    if isJsWs c then
      if inRun then underscoreWsAux rest true else '_' :: underscoreWsAux rest true
    else c :: underscoreWsAux rest false

/-- `.replace(/\s+/g, '_')`. -/
def underscoreWs (l : List Char) : List Char :=
  underscoreWsAux l false

/-- The normalization applied to both the queried environment and each
catalog key: lowercase, diacritic stripping, whitespace → underscore.
(`Char.toLower` covers the ASCII case range actually exercised here.) -/
def normalizeEnv (s : String) : String :=
  ⟨underscoreWs ((s.data.map Char.toLower).map stripDiacriticChar)⟩

/-- `mapEnvironmentToSounds`: first catalog entry (in insertion order)
whose normalized key contains, or is contained in, the normalized input;
falls back to `environmentSounds.default` when nothing matches. -/
def mapEnvironmentToSounds (environment : String) : List String :=
  let normalizedEnv := normalizeEnv environment
  match environmentSounds.find? (fun entry =>
      let normalizedKey := normalizeEnv entry.fst
      containsStr normalizedEnv normalizedKey || containsStr normalizedKey normalizedEnv) with
  | some entry => entry.snd
  | none => defaultSounds

/-! ## Mapping a remote segment to an `EnvironmentDetection`
(grokService.ts lines 292–361) -/

/-- The emotional-tone derivation (grokService.ts lines 313–324):
a chain of `if`/`else if` branches over the vocal type and intensity,
defaulting to `sensuel`. -/
def emotionalToneOf (vtype : String) (intensity : ℚ) : String :=
  if vtype = "gémissement" ∨ 80 < intensity then "excite"
  else if vtype = "cri" ∨ 90 < intensity then "jouissance"
  else if vtype = "murmure" ∨ vtype = "chuchotement" then "murmure"
  else if 70 < intensity then "intense"
  else if intensity < 50 then "doux"
  else "sensuel"

/-- The speech-rate passthrough (grokService.ts lines 327–330):
unknown rhythms map to `modéré`. -/
def speechRateOf (rhythm : String) : String :=
  if rhythm = "très lent" then "très lent"
  else if rhythm = "lent" then "lent"
  else if rhythm = "rapide" then "rapide"
  else "modéré"

/-- The volume derivation (grokService.ts lines 333–335). -/
def volumeOf (intensity : ℚ) : String :=
  if 80 < intensity then "fort"
  else if intensity < 50 then "doux"
  else "normal"

/-- The `speed` percentage string stored in `elevenlabsParams`
(grokService.ts lines 348–351), keyed on the rhythm. -/
def rhythmSpeedStr (rhythm : String) : String :=
  if rhythm = "très lent" then "25%"
  else if rhythm = "lent" then "35%"
  else if rhythm = "rapide" then "55%"
  else "45%"

/-- The per-segment mapping body of `analyzeTextEnvironments`
(grokService.ts lines 292–361).  `segment.environment?.type || 'chambre'`
is JS truthiness: a missing object and an empty `type` string both fall
back to `chambre`. -/
def mkDetection (seg : EnhancedSegment) : EnvironmentDetection :=
  let cleanedText := chooseSegmentText seg.text
  let environment :=
    match seg.environment with
    | some env => if env.type = "" then "chambre" else env.type
    | none => "chambre"
  { segment := cleanedText
    environment := environment
    soundEffects := mapEnvironmentToSounds environment
    emotionalTone := emotionalToneOf seg.vocal.type seg.vocal.intensity
    speechRate := speechRateOf seg.vocal.rhythm
    volume := volumeOf seg.vocal.intensity
    startTime := none
    duration := none
    fadeIn := none
    fadeOut := none
    transition := none
    elevenlabsParams := { stability := seg.elevenlabs.stability
                          similarity_boost := seg.elevenlabs.similarity_boost
                          speed := rhythmSpeedStr seg.vocal.rhythm
                          pitch_shift := seg.vocal.pitch }
    expressionDetails := { breathing := seg.expressions.breathing
                           sounds := seg.expressions.sounds
                           duration := seg.expressions.duration } }

/-! ## Timeline pass (grokService.ts lines 363–388, duplicated verbatim
at lines 492–517 for the local fallback) -/

/-- The running-accumulator update at the end of each loop iteration:
`currentTime += estimatedDuration`, then, if the segment crossfades and
is not the last one (`index < results.length - 1` ⇔ the remainder of
the list is non-empty), `currentTime -= transitionDuration`. -/
def nextStart (t : ℚ) (seg : EnvironmentDetection) (rest : List EnvironmentDetection) : ℚ :=
  let timing := calculateTiming seg.segment seg.speechRate
  if timing.transitionType = TransitionType.crossfade ∧ rest.isEmpty = false then
    t + timing.estimatedDuration - timing.transitionDuration
  else
    t + timing.estimatedDuration

/-- The timeline pass: walk the mapped detections in order, attach the
`calculateTiming` data plus the accumulated `startTime` to each one. -/
def attachTimings : ℚ → List EnvironmentDetection → List EnvironmentDetection
  | _, [] => []
  | t, seg :: rest =>
    let timing := calculateTiming seg.segment seg.speechRate
    { seg with startTime := some t
               duration := some timing.estimatedDuration
               fadeIn := some timing.fadeIn
               fadeOut := some timing.fadeOut
               transition := some { type := timing.transitionType
                                    duration := timing.transitionDuration } } ::
      attachTimings (nextStart t seg rest) rest

/-- `analyzeTextEnvironments` (grokService.ts lines 282–401): remote
analysis (with its internal catch-all default), per-segment mapping,
then the timeline pass starting at `currentTime = 0`.  The surrounding
`try`/`catch` that would divert to `analyzeTextLocally` is unreachable
here because `analyzeTextWithGrok` never throws and the mapping body is
total. -/
def analyzeTextEnvironments (text : String) (remote : RemoteOutcome) : List EnvironmentDetection :=
  attachTimings 0 ((analyzeTextWithGrok text remote).map mkDetection)

/-! ## Local fallback `analyzeTextLocally` (grokService.ts lines 408–557) -/

/-- Split on `/\n\n+/`: a maximal run of two or more consecutive
newlines separates paragraphs (the greedy `+` swallows the whole run);
a lone newline is ordinary content.  `pending` counts the newlines of
the run currently being read, `acc` holds the current paragraph in
reverse. -/
def splitParasGo : List Char → ℕ → List Char → List (List Char)
  | [], pending, acc =>
    if 2 ≤ pending then [acc.reverse, []]
    else [(List.replicate pending '\n' ++ acc).reverse]
  | c :: rest, pending, acc =>
    if c = '\n' then splitParasGo rest (pending + 1) acc
    else if 2 ≤ pending then acc.reverse :: splitParasGo rest 0 [c]
    else splitParasGo rest 0 (c :: (List.replicate pending '\n' ++ acc))

/-- `text.split(/\n\n+/)`. -/
def splitParagraphs (text : String) : List String :=
  (splitParasGo text.data 0 []).map (fun l => ⟨l⟩)

/-- The keyword-based environment detection of the local fallback
(grokService.ts lines 426–434), operating on the lowercased segment. -/
def localEnvironmentOf (lower : String) : String :=
  if containsStr lower "plage" || containsStr lower "mer" || containsStr lower "vague" then "plage"
  else if containsStr lower "forêt" || containsStr lower "bois" || containsStr lower "arbre" then "forêt"
  else if containsStr lower "pluie" || containsStr lower "orage" then "pluie"
  else if containsStr lower "ville" || containsStr lower "rue" then "ville"
  else "chambre"

/-- The keyword-based emotional-tone detection of the local fallback
(grokService.ts lines 437–447). -/
def localToneOf (lower : String) : String :=
  if containsStr lower "gémis" || containsStr lower "soupir" || containsStr lower "excit" then "excite"
  else if containsStr lower "extase" || containsStr lower "jouir" || containsStr lower "orgasme" then "jouissance"
  else if containsStr lower "murmure" || containsStr lower "chuchot" then "murmure"
  else if containsStr lower "fort" || containsStr lower "intense" || containsStr lower "violent" then "intense"
  else if containsStr lower "doux" || containsStr lower "tendre" then "doux"
  else "sensuel"

/-- The onomatopoeia detection (grokService.ts lines 450–455).  Each
case-insensitive regex `/m+h+h+/`, `/a+h+h+/`, `/o+h+h+/`, `/h+a+h+/`,
`/o+u+i+/` matches some substring of the text exactly when the
lowercased text contains its minimal match (`mhh`, `ahh`, `ohh`,
`hah`, `oui` respectively): any longer match contains the minimal one. -/
def localOnomatopees (lower : String) : List String :=
  (if containsStr lower "mhh" then ["mhhh"] else []) ++
  (if containsStr lower "ahh" then ["ahhh"] else []) ++
  (if containsStr lower "ohh" then ["ohhh"] else []) ++
  (if containsStr lower "hah" then ["hahh"] else []) ++
  (if containsStr lower "oui" then ["oui"] else [])

/-- The per-paragraph mapping of `analyzeTextLocally` (grokService.ts
lines 420–490): fixed `lent` speech rate and `normal` volume, default
ElevenLabs parameters and expression details keyed on the detected
tone. -/
def localDetection (p : String) : EnvironmentDetection :=
  let lower : String := ⟨p.data.map Char.toLower⟩
  let environment := localEnvironmentOf lower
  let emotionalTone := localToneOf lower
  { segment := p
    environment := environment
    soundEffects := mapEnvironmentToSounds environment
    emotionalTone := emotionalTone
    speechRate := "lent"
    volume := "normal"
    startTime := none
    duration := none
    fadeIn := none
    fadeOut := none
    transition := none
    elevenlabsParams :=
      { stability := if emotionalTone = "jouissance" then 0.3
                     else if emotionalTone = "excite" then 0.4
                     else if emotionalTone = "murmure" then 0.8
                     else if emotionalTone = "intense" then 0.4
                     else 0.65
        similarity_boost := if emotionalTone = "jouissance" then 0.95
                            else if emotionalTone = "excite" then 0.9
                            else if emotionalTone = "murmure" then 0.75
                            else if emotionalTone = "intense" then 0.9
                            else 0.8
        speed := "35%"
        pitch_shift := if emotionalTone = "murmure" then -10
                       else if emotionalTone = "jouissance" then 5
                       else -5 }
    expressionDetails :=
      { breathing := if emotionalTone = "jouissance" ∨ emotionalTone = "excite" then "haletante"
                     else if emotionalTone = "intense" then "profonde"
                     else "légère"
        sounds := localOnomatopees lower
        duration := 500 } }

/-- `analyzeTextLocally` (grokService.ts lines 408–522): paragraph
split, non-blank filter, whole text as single segment when no paragraph
survives, per-paragraph mapping, then the same timeline pass.  Its own
`catch` branch (lines 523–556) is unreachable in this total embedding. -/
def analyzeTextLocally (text : String) : List EnvironmentDetection :=
  let paragraphs := (splitParagraphs text).filter (fun p => 0 < (jsTrim p).length)
  let segments := if 0 < paragraphs.length then paragraphs else [text]
  attachTimings 0 (segments.map localDetection)

/-! ## The 35% speed clamp in `generateVoiceWithEnvironment`
(elevenLabsAPI.ts lines 226–236) -/

/-- `parseInt` on a segment-speed string: value of the leading digit
run (all speed strings produced by the pipeline start with digits). -/
def parseLeadingDigits : List Char → ℕ → ℕ
  | [], acc => acc
  | c :: rest, acc =>
    if c.isDigit then parseLeadingDigits rest (acc * 10 + (c.toNat - 48))
    else acc

/-- Remove the first occurrence of a character: JS
`speed.replace('%', '')` with a plain-string pattern replaces only the
first occurrence. -/
def removeFirstChar (target : Char) : List Char → List Char
  | [] => []
  | c :: rest => if c = target then rest else c :: removeFirstChar target rest

/-- `parseInt(segment.elevenlabsParams.speed.replace('%', ''), 10)`. -/
def speedValue (s : String) : ℕ :=
  parseLeadingDigits (removeFirstChar '%' s.data) 0

/-- `Math.min(speedValue, 35)` — the strict 35% cap applied in
`generateVoiceWithEnvironment` before the SSML prosody is built. -/
def clampedSpeedValue (s : String) : ℕ :=
  min (speedValue s) 35

/-! ## `getVoiceSettings` (voiceSettings.ts lines 29–73) -/

/-- `VoiceSettings` as used by `getVoiceSettings`. -/
structure VoiceSettings where
  stability : ℚ
  similarity_boost : ℚ
deriving DecidableEq, Repr

/-- The two fields of `TextAnalysis` read by `getVoiceSettings`.  The
`analyzeText` producer lives in `elevenlabs/textAnalysis`, outside the
provided sources; `getVoiceSettings` itself places no bound on either
field, so both are taken as arbitrary rationals. -/
structure TextAnalysis where
  intensity : ℚ
  emotionalProgression : ℚ
deriving DecidableEq, Repr

/-- `baseSettings[emotion] || baseSettings.sensuel` (voiceSettings.ts
lines 35–62): the six-entry lookup table with `sensuel` as fallback for
unknown labels. -/
def baseSettingsFor (emotion : String) : VoiceSettings :=
  if emotion = "sensuel" then { stability := 0.55, similarity_boost := 0.88 }
  else if emotion = "excite" then { stability := 0.30, similarity_boost := 0.92 }
  else if emotion = "jouissance" then { stability := 0.20, similarity_boost := 0.95 }
  else if emotion = "murmure" then { stability := 0.70, similarity_boost := 0.82 }
  else if emotion = "intense" then { stability := 0.32, similarity_boost := 0.90 }
  else if emotion = "doux" then { stability := 0.65, similarity_boost := 0.83 }
  else { stability := 0.55, similarity_boost := 0.88 }

/-- `getVoiceSettings` (voiceSettings.ts lines 29–73): the base pair for
the emotion, stability scaled down with intensity and clamped into
[0.15, 0.75], similarity boosted with the narrative progression and
clamped into [0.75, 0.98]. -/
def getVoiceSettings (emotion : String) (analysis : TextAnalysis) : VoiceSettings :=
  let settings := baseSettingsFor emotion
  { stability := max 0.15 (min 0.75 (settings.stability * (1 - analysis.intensity * 0.3)))
    similarity_boost :=
      max 0.75 (min 0.98 (settings.similarity_boost + analysis.emotionalProgression * 0.15)) }

/-! ## Helpers used only to state timeline properties -/

/-- A dummy detection used as `getD`/`headD` default in statements. -/
def emptyDetection : EnvironmentDetection :=
  { segment := ""
    environment := ""
    soundEffects := []
    emotionalTone := ""
    speechRate := ""
    volume := ""
    startTime := none
    duration := none
    fadeIn := none
    fadeOut := none
    transition := none
    elevenlabsParams := { stability := 0, similarity_boost := 0, speed := "", pitch_shift := 0 }
    expressionDetails := { breathing := "", sounds := [], duration := 0 } }

/-- A dummy transition used as an `Option.getD` default in statements. -/
def emptyTransition : Transition :=
  { type := TransitionType.cut, duration := 0 }

/-- Attached `startTime` of the `k`-th element of a timeline. -/
def startAt (l : List EnvironmentDetection) (k : ℕ) : ℚ :=
  ((l.getD k emptyDetection).startTime).getD 0

/-- Attached `duration` of the `k`-th element of a timeline. -/
def durAt (l : List EnvironmentDetection) (k : ℕ) : ℚ :=
  ((l.getD k emptyDetection).duration).getD 0

/-- Attached transition kind of the `k`-th element of a timeline. -/
def transKindAt (l : List EnvironmentDetection) (k : ℕ) : TransitionType :=
  (((l.getD k emptyDetection).transition).getD emptyTransition).type

/-- Attached transition duration of the `k`-th element of a timeline. -/
def transDurAt (l : List EnvironmentDetection) (k : ℕ) : ℚ :=
  (((l.getD k emptyDetection).transition).getD emptyTransition).duration

/-- A minimal pre-timing detection used as concrete input in witnesses
and counterexamples. -/
def sampleDetection (txt rate : String) : EnvironmentDetection :=
  { segment := txt
    environment := "chambre"
    soundEffects := ["mid-nights-sound-291477.mp3"]
    emotionalTone := "sensuel"
    speechRate := rate
    volume := "normal"
    startTime := none
    duration := none
    fadeIn := none
    fadeOut := none
    transition := none
    elevenlabsParams := { stability := 0.65, similarity_boost := 0.8
                          speed := "35%", pitch_shift := -5 }
    expressionDetails := { breathing := "légère", sounds := [], duration := 500 } }

/-- A concrete remote segment whose rhythm is `rapide` (used to exhibit
the 55% speed mapping). -/
def rapidSeg : EnhancedSegment :=
  { text := "Il accelere encore"
    vocal := { intensity := 70, type := "normal", rhythm := "rapide", pitch := 0 }
    expressions := { breathing := "légère", sounds := [], duration := 500 }
    elevenlabs := { stability := 0.5, similarity_boost := 0.9, speed := none, pitch_shift := none }
    environment := none }

/-- A concrete remote segment whose kept text ends in an ellipsis: the
cleaning chain strips `Ah...` down to `Ah` (2 characters), so the
original text is restored and the crossfade branch fires. -/
def ellipsisSeg : EnhancedSegment :=
  { text := "Ah..."
    vocal := { intensity := 40, type := "normal", rhythm := "rapide", pitch := 0 }
    expressions := { breathing := "légère", sounds := [], duration := 500 }
    elevenlabs := { stability := 0.5, similarity_boost := 0.9, speed := none, pitch_shift := none }
    environment := none }

/-- A concrete remote segment following `ellipsisSeg`. -/
def followSeg : EnhancedSegment :=
  { text := "Viens plus pres"
    vocal := { intensity := 40, type := "normal", rhythm := "rapide", pitch := 0 }
    expressions := { breathing := "légère", sounds := [], duration := 500 }
    elevenlabs := { stability := 0.5, similarity_boost := 0.9, speed := none, pitch_shift := none }
    environment := none }

/-- Concrete two-element pre-timing list whose crossfade segment is long
enough (duration 10/3 s ≥ 1 s) for monotone start times. -/
def monotoneSegs : List EnvironmentDetection :=
  [sampleDetection "Tu me regardes avec envie..." "lent",
   sampleDetection "Viens la maintenant" "lent"]

/-! ## Timeline lemmas -/

/-- The timeline pass keeps the number of segments. -/
theorem attachTimings_length (t : ℚ) (segs : List EnvironmentDetection) :
    (attachTimings t segs).length = segs.length := by
  induction segs generalizing t with
  | nil => rfl
  | cons s rest ih => simp [attachTimings, ih]

/-- The first element of a non-empty timeline starts at the accumulator
value passed in. -/
theorem startAt_attachTimings_zero (t : ℚ) (s : EnvironmentDetection)
    (rest : List EnvironmentDetection) :
    startAt (attachTimings t (s :: rest)) 0 = t := rfl

/-- The first element's attached duration is its `calculateTiming`
estimate. -/
theorem durAt_attachTimings_zero (t : ℚ) (s : EnvironmentDetection)
    (rest : List EnvironmentDetection) :
    durAt (attachTimings t (s :: rest)) 0 =
      (calculateTiming s.segment s.speechRate).estimatedDuration := rfl

/-- The first element's attached transition kind is its
`calculateTiming` transition type. -/
theorem transKindAt_attachTimings_zero (t : ℚ) (s : EnvironmentDetection)
    (rest : List EnvironmentDetection) :
    transKindAt (attachTimings t (s :: rest)) 0 =
      (calculateTiming s.segment s.speechRate).transitionType := rfl

/-- The first element's attached transition duration is its
`calculateTiming` transition duration. -/
theorem transDurAt_attachTimings_zero (t : ℚ) (s : EnvironmentDetection)
    (rest : List EnvironmentDetection) :
    transDurAt (attachTimings t (s :: rest)) 0 =
      (calculateTiming s.segment s.speechRate).transitionDuration := rfl

/-- Index shifting across the head of a timeline. -/
theorem startAt_attachTimings_succ (t : ℚ) (s : EnvironmentDetection)
    (rest : List EnvironmentDetection) (k : ℕ) :
    startAt (attachTimings t (s :: rest)) (k + 1) =
      startAt (attachTimings (nextStart t s rest) rest) k := rfl

/-- The recurrence actually implemented by the timeline pass: each next
start time is the previous one plus the previous duration, minus the
transition duration exactly when the previous segment crossfades (the
guard `index < results.length - 1` is subsumed by `k + 1 < segs.length`). -/
theorem attachTimings_step (segs : List EnvironmentDetection) :
    ∀ (t : ℚ) (k : ℕ), k + 1 < segs.length →
    startAt (attachTimings t segs) (k + 1) =
      (if transKindAt (attachTimings t segs) k = TransitionType.crossfade then
        startAt (attachTimings t segs) k + durAt (attachTimings t segs) k -
          transDurAt (attachTimings t segs) k
      else
        startAt (attachTimings t segs) k + durAt (attachTimings t segs) k) := by
  induction segs with
  | nil => intro t k hk; simp at hk
  | cons s rest ih =>
    intro t k hk
    cases k with
    | zero =>
      cases rest with
      | nil => simp at hk
      | cons r rest' =>
        rw [startAt_attachTimings_succ, startAt_attachTimings_zero,
          startAt_attachTimings_zero, durAt_attachTimings_zero,
          transKindAt_attachTimings_zero, transDurAt_attachTimings_zero]
        unfold nextStart
        by_cases hc : (calculateTiming s.segment s.speechRate).transitionType =
            TransitionType.crossfade
        · rw [if_pos ⟨hc, rfl⟩, if_pos hc]
        · rw [if_neg (fun h => hc h.1), if_neg hc]
    | succ j =>
      have hk' : j + 1 < rest.length := by
        simp only [List.length_cons] at hk; omega
      have step := ih (nextStart t s rest) j hk'
      calc startAt (attachTimings t (s :: rest)) (j + 1 + 1)
          = startAt (attachTimings (nextStart t s rest) rest) (j + 1) :=
            startAt_attachTimings_succ t s rest (j + 1)
        _ = _ := by
            rw [step]
            have e1 : startAt (attachTimings (nextStart t s rest) rest) j =
                startAt (attachTimings t (s :: rest)) (j + 1) := rfl
            have e2 : durAt (attachTimings (nextStart t s rest) rest) j =
                durAt (attachTimings t (s :: rest)) (j + 1) := rfl
            have e3 : transKindAt (attachTimings (nextStart t s rest) rest) j =
                transKindAt (attachTimings t (s :: rest)) (j + 1) := rfl
            have e4 : transDurAt (attachTimings (nextStart t s rest) rest) j =
                transDurAt (attachTimings t (s :: rest)) (j + 1) := rfl
            rw [e1, e2, e3, e4]

/-- Estimated durations are never negative: the word count is a natural
number and every words-per-second rate is positive. -/
theorem estimatedDuration_nonneg (text rate : String) :
    0 ≤ (calculateTiming text rate).estimatedDuration := by
  have hw : (0 : ℚ) < wordsPerSecond rate := by
    unfold wordsPerSecond; split_ifs <;> norm_num
  show 0 ≤ (wordCount text : ℚ) / wordsPerSecond rate
  exact div_nonneg (Nat.cast_nonneg _) hw.le

/-- Every attached duration in a timeline is non-negative. -/
theorem durAt_attachTimings_nonneg (segs : List EnvironmentDetection) :
    ∀ (t : ℚ) (k : ℕ), k < segs.length → 0 ≤ durAt (attachTimings t segs) k := by
  induction segs with
  | nil => intro t k hk; simp at hk
  | cons s rest ih =>
    intro t k hk
    cases k with
    | zero => rw [durAt_attachTimings_zero]; exact estimatedDuration_nonneg _ _
    | succ j =>
      have hk' : j < rest.length := by
        simp only [List.length_cons] at hk; omega
      have e2 : durAt (attachTimings t (s :: rest)) (j + 1) =
          durAt (attachTimings (nextStart t s rest) rest) j := rfl
      rw [e2]
      exact ih (nextStart t s rest) j hk'

/-! ## Claim theorems -/

/-- Claim C3: the timeline assembly (shared verbatim by
`analyzeTextEnvironments` and `analyzeTextLocally`) satisfies the exact
recurrence: the first start time is 0; for a segment `k` with a
successor, the next start time is `startTime_k + duration_k`, minus
`transitionDuration_k` exactly when segment `k`'s transition kind is
crossfade. -/
theorem claim3_timeline_recurrence (segs : List EnvironmentDetection) (k : ℕ)
    (hk : k + 1 < segs.length) :
    startAt (attachTimings 0 segs) 0 = 0 ∧
    (transKindAt (attachTimings 0 segs) k ≠ TransitionType.crossfade →
      startAt (attachTimings 0 segs) (k + 1) =
        startAt (attachTimings 0 segs) k + durAt (attachTimings 0 segs) k) ∧
    (transKindAt (attachTimings 0 segs) k = TransitionType.crossfade →
      startAt (attachTimings 0 segs) (k + 1) =
        startAt (attachTimings 0 segs) k + durAt (attachTimings 0 segs) k -
          transDurAt (attachTimings 0 segs) k) := by
  have h0 : startAt (attachTimings 0 segs) 0 = 0 := by
    cases segs with
    | nil => simp at hk
    | cons s rest => exact startAt_attachTimings_zero 0 s rest
  have hstep := attachTimings_step segs 0 k hk
  refine ⟨h0, fun hnc => ?_, fun hc => ?_⟩
  · rw [hstep, if_neg hnc]
  · rw [hstep, if_pos hc]

/-- Witness for C3 on a concrete two-segment timeline. -/
theorem claim3_witness :
    0 + 1 < monotoneSegs.length ∧
    (startAt (attachTimings 0 monotoneSegs) 0 = 0 ∧
     (transKindAt (attachTimings 0 monotoneSegs) 0 ≠ TransitionType.crossfade →
       startAt (attachTimings 0 monotoneSegs) (0 + 1) =
         startAt (attachTimings 0 monotoneSegs) 0 + durAt (attachTimings 0 monotoneSegs) 0) ∧
     (transKindAt (attachTimings 0 monotoneSegs) 0 = TransitionType.crossfade →
       startAt (attachTimings 0 monotoneSegs) (0 + 1) =
         startAt (attachTimings 0 monotoneSegs) 0 + durAt (attachTimings 0 monotoneSegs) 0 -
           transDurAt (attachTimings 0 monotoneSegs) 0)) :=
  ⟨by decide, claim3_timeline_recurrence monotoneSegs 0 (by decide)⟩

/-- Counterexample to claim C2 as stated: through the full remote path
of `analyzeTextEnvironments`, a short crossfading segment (text
`Ah...`, one word at the `rapide` rate: duration 0.4 s, crossfade
compensation 1 s) makes the second start time −3/5, strictly below the
first start time 0 — start times are not non-decreasing. -/
theorem claim2_counterexample :
    ((analyzeTextEnvironments "Ah... Viens plus pres"
        (RemoteOutcome.ok [ellipsisSeg, followSeg])).map (fun d => d.startTime)) =
      [some 0, some (-(3 / 5 : ℚ))] ∧
    startAt (analyzeTextEnvironments "Ah... Viens plus pres"
        (RemoteOutcome.ok [ellipsisSeg, followSeg])) 1 <
      startAt (analyzeTextEnvironments "Ah... Viens plus pres"
        (RemoteOutcome.ok [ellipsisSeg, followSeg])) 0 := by
  constructor <;> with_unfolding_all decide

/-- Claim C2 as amended: start times are non-decreasing provided every
crossfading segment's estimated duration is at least its transition
duration (1 s); without that proviso the counterexample above applies. -/
theorem claim2_amended_monotone (segs : List EnvironmentDetection)
    (h : ∀ k, k < (attachTimings 0 segs).length →
      transKindAt (attachTimings 0 segs) k = TransitionType.crossfade →
      transDurAt (attachTimings 0 segs) k ≤ durAt (attachTimings 0 segs) k) :
    ∀ k, k + 1 < segs.length →
      startAt (attachTimings 0 segs) k ≤ startAt (attachTimings 0 segs) (k + 1) := by
  intro k hk
  have hlen : k < (attachTimings 0 segs).length := by
    rw [attachTimings_length]; omega
  have hd : 0 ≤ durAt (attachTimings 0 segs) k :=
    durAt_attachTimings_nonneg segs 0 k (by omega)
  have hstep := attachTimings_step segs 0 k hk
  by_cases hc : transKindAt (attachTimings 0 segs) k = TransitionType.crossfade
  · rw [hstep, if_pos hc]
    have hle := h k hlen hc
    linarith
  · rw [hstep, if_neg hc]
    linarith

/-- Witness for the amended C2 on a concrete timeline whose crossfade
segment lasts 10/3 s ≥ 1 s. -/
theorem claim2_witness :
    (∀ k, k < (attachTimings 0 monotoneSegs).length →
      transKindAt (attachTimings 0 monotoneSegs) k = TransitionType.crossfade →
      transDurAt (attachTimings 0 monotoneSegs) k ≤ durAt (attachTimings 0 monotoneSegs) k) ∧
    (∀ k, k + 1 < monotoneSegs.length →
      startAt (attachTimings 0 monotoneSegs) k ≤ startAt (attachTimings 0 monotoneSegs) (k + 1)) :=
  ⟨by with_unfolding_all decide, claim2_amended_monotone monotoneSegs (by with_unfolding_all decide)⟩

/-- Claim C7: for every segment text and speech-rate category,
`calculateTiming` picks the transition from the segment's own text —
an ellipsis anywhere gives crossfade (1.0 s); otherwise trailing
terminal punctuation gives cut (0.2 s); otherwise overlap (0.5 s). -/
theorem claim7_transition_selection (text speechRate : String) :
    (containsEllipsis text = true →
      (calculateTiming text speechRate).transitionType = TransitionType.crossfade ∧
      (calculateTiming text speechRate).transitionDuration = 1.0) ∧
    (containsEllipsis text = false → endsWithPunctuation text = true →
      (calculateTiming text speechRate).transitionType = TransitionType.cut ∧
      (calculateTiming text speechRate).transitionDuration = 0.2) ∧
    (containsEllipsis text = false → endsWithPunctuation text = false →
      (calculateTiming text speechRate).transitionType = TransitionType.overlap ∧
      (calculateTiming text speechRate).transitionDuration = 0.5) := by
  have ht : (calculateTiming text speechRate).transitionType =
      (if containsEllipsis text then TransitionType.crossfade
       else if endsWithPunctuation text then TransitionType.cut
       else TransitionType.overlap) := rfl
  have hd : (calculateTiming text speechRate).transitionDuration =
      (if (calculateTiming text speechRate).transitionType = TransitionType.crossfade then (1.0 : ℚ)
       else if (calculateTiming text speechRate).transitionType = TransitionType.overlap then 0.5
       else 0.2) := rfl
  refine ⟨fun h1 => ?_, fun h1 h2 => ?_, fun h1 h2 => ?_⟩
  · have htt : (calculateTiming text speechRate).transitionType = TransitionType.crossfade := by
      rw [ht, if_pos h1]
    exact ⟨htt, by rw [hd, htt]; simp⟩
  · have htt : (calculateTiming text speechRate).transitionType = TransitionType.cut := by
      rw [ht]; simp [h1, h2]
    exact ⟨htt, by rw [hd, htt]; simp⟩
  · have htt : (calculateTiming text speechRate).transitionType = TransitionType.overlap := by
      rw [ht]; simp [h1, h2]
    exact ⟨htt, by rw [hd, htt]; simp⟩

/-- Witness for C7: one concrete text per transition branch. -/
theorem claim7_witness :
    (containsEllipsis "Elle hesite... puis sourit" = true ∧
      (calculateTiming "Elle hesite... puis sourit" "lent").transitionType =
        TransitionType.crossfade ∧
      (calculateTiming "Elle hesite... puis sourit" "lent").transitionDuration = 1.0) ∧
    (containsEllipsis "Il sourit." = false ∧ endsWithPunctuation "Il sourit." = true ∧
      (calculateTiming "Il sourit." "lent").transitionType = TransitionType.cut ∧
      (calculateTiming "Il sourit." "lent").transitionDuration = 0.2) ∧
    (containsEllipsis "Elle murmure" = false ∧ endsWithPunctuation "Elle murmure" = false ∧
      (calculateTiming "Elle murmure" "lent").transitionType = TransitionType.overlap ∧
      (calculateTiming "Elle murmure" "lent").transitionDuration = 0.5) :=
  ⟨⟨by decide, (claim7_transition_selection "Elle hesite... puis sourit" "lent").1 (by decide)⟩,
   ⟨by decide, by decide,
    (claim7_transition_selection "Il sourit." "lent").2.1 (by decide) (by decide)⟩,
   ⟨by decide, by decide,
    (claim7_transition_selection "Elle murmure" "lent").2.2 (by decide) (by decide)⟩⟩

/-- Claim C4: for every emotion label (known or not) and every intensity
and emotional-progression value, the returned stability lies in
[0.15, 0.75] and the returned similarity boost in [0.75, 0.98], and the
two values are exactly the clamps of `base * (1 - intensity * 0.3)` and
`base + progression * 0.15` (`analysis.intensity` carries the
intensity/100 fraction of the spec's percent scale). -/
theorem claim4_voice_settings_bounds (emotion : String) (analysis : TextAnalysis) :
    0.15 ≤ (getVoiceSettings emotion analysis).stability ∧
    (getVoiceSettings emotion analysis).stability ≤ 0.75 ∧
    0.75 ≤ (getVoiceSettings emotion analysis).similarity_boost ∧
    (getVoiceSettings emotion analysis).similarity_boost ≤ 0.98 ∧
    (getVoiceSettings emotion analysis).stability =
      max 0.15 (min 0.75 ((baseSettingsFor emotion).stability * (1 - analysis.intensity * 0.3))) ∧
    (getVoiceSettings emotion analysis).similarity_boost =
      max 0.75 (min 0.98
        ((baseSettingsFor emotion).similarity_boost + analysis.emotionalProgression * 0.15)) := by
  refine ⟨le_max_left _ _, max_le (by norm_num) (min_le_left _ _),
    le_max_left _ _, max_le (by norm_num) (min_le_left _ _), rfl, rfl⟩

/-- Claim C10: in the tone derivation of `analyzeTextEnvironments`,
`jouissance` is produced exactly for vocal type `cri` with intensity at
most 80; for any other non-`gémissement` vocal type, intensity above 90
lands in the earlier `intensity > 80` branch and yields `excite`. -/
theorem claim10_tone_derivation (vtype : String) (i : ℚ) :
    (emotionalToneOf vtype i = "jouissance" ↔ (vtype = "cri" ∧ i ≤ 80)) ∧
    (vtype ≠ "cri" → vtype ≠ "gémissement" → 90 < i →
      emotionalToneOf vtype i = "excite") := by
  constructor
  · constructor
    · intro h
      by_cases h1 : vtype = "gémissement" ∨ 80 < i
      · unfold emotionalToneOf at h
        rw [if_pos h1] at h
        exact absurd h (by decide)
      · push_neg at h1
        by_cases h2 : vtype = "cri" ∨ 90 < i
        · rcases h2 with hc | hgt
          · exact ⟨hc, h1.2⟩
          · exact absurd hgt (by have := h1.2; intro hcon; linarith)
        · unfold emotionalToneOf at h
          rw [if_neg, if_neg h2] at h
          · split_ifs at h <;> exact absurd h (by decide)
          · intro hor
            rcases hor with he | hgt
            · exact h1.1 he
            · exact absurd hgt (not_lt.mpr h1.2)
    · rintro ⟨hc, hi⟩
      unfold emotionalToneOf
      rw [if_neg, if_pos (Or.inl hc)]
      intro hor
      rcases hor with he | hgt
      · rw [hc] at he; exact absurd he (by decide)
      · exact absurd hgt (not_lt.mpr hi)
  · intro _ _ hi
    unfold emotionalToneOf
    rw [if_pos (Or.inr (by linarith))]

/-- Witness for C10: `cri` at intensity 75 gives `jouissance`; a plain
`normal` voice at intensity 95 gives `excite`, not `jouissance`. -/
theorem claim10_witness :
    emotionalToneOf "cri" 75 = "jouissance" ∧ emotionalToneOf "normal" 95 = "excite" :=
  ⟨(claim10_tone_derivation "cri" 75).1.mpr ⟨rfl, by norm_num⟩,
   (claim10_tone_derivation "normal" 95).2 (by decide) (by decide) (by norm_num)⟩

/-- Counterexample to claim C1 as stated: a remote segment with rhythm
`rapide` gets `speed := "55%"` in the `EnvironmentDetection` returned by
`analyzeTextEnvironments` — the speed field is not capped at 35%. -/
theorem claim1_counterexample :
    ((analyzeTextEnvironments "Il accelere" (RemoteOutcome.ok [rapidSeg])).map
        (fun d => d.elevenlabsParams.speed)) = ["55%"] ∧
    35 < speedValue "55%" := by
  constructor <;> decide

/-- Claim C1 as amended: the `speed` field produced by the remote path
is one of 25%/35%/45%/55% (so it can exceed 35%); the ≤ 35 bound holds
for the value actually used for synthesis, after
`generateVoiceWithEnvironment` clamps the parsed value with
`Math.min(·, 35)`, which lands in [25, 35]; the local fallback always
stores exactly `35%`. -/
theorem claim1_amended_speed_clamp (seg : EnhancedSegment) (p : String) :
    (mkDetection seg).elevenlabsParams.speed ∈ (["25%", "35%", "45%", "55%"] : List String) ∧
    clampedSpeedValue ((mkDetection seg).elevenlabsParams.speed) ≤ 35 ∧
    25 ≤ clampedSpeedValue ((mkDetection seg).elevenlabsParams.speed) ∧
    (localDetection p).elevenlabsParams.speed = "35%" ∧
    clampedSpeedValue ((localDetection p).elevenlabsParams.speed) = 35 := by
  have hs : (mkDetection seg).elevenlabsParams.speed = rhythmSpeedStr seg.vocal.rhythm := rfl
  have hl : (localDetection p).elevenlabsParams.speed = "35%" := rfl
  rw [hs, hl]
  unfold rhythmSpeedStr
  split_ifs <;> exact ⟨by decide, by decide, by decide, rfl, by decide⟩

/-- Counterexample to claim C9 as stated: a whitespace-only environment
normalizes to `"_"`, which neither contains nor is contained in any
catalog key, so `mapEnvironmentToSounds` does return the default entry
for it (the claim asserted it would not). -/
theorem claim9_counterexample :
    normalizeEnv " " = "_" ∧ mapEnvironmentToSounds " " = defaultSounds ∧
    defaultSounds = ["calm-nature-sounds-196258.mp3"] := by
  refine ⟨rfl, by decide, rfl⟩

/-- Claim C9 as amended: for the empty-string input every normalized
catalog key contains the (empty) normalized input, so the first entry
`plage` wins and its two sounds are returned — not the default entry;
a whitespace-only input instead normalizes to an underscore and falls
through to the default entry. -/
theorem claim9_amended_empty_env :
    mapEnvironmentToSounds "" = ["ocean-waves-112906.mp3", "sea-and-seagull-wave-5932.mp3"] ∧
    mapEnvironmentToSounds "" ≠ defaultSounds ∧
    environmentSounds.head? =
      some ("plage", ["ocean-waves-112906.mp3", "sea-and-seagull-wave-5932.mp3"]) ∧
    normalizeEnv "\t " = "_" ∧ mapEnvironmentToSounds "\t " = defaultSounds := by
  refine ⟨by decide, by decide, rfl, rfl, by decide⟩

/-- Claim C8: the per-segment cleaning of `analyzeTextEnvironments`
keeps the cleaned text only when it has at least 3 characters and
reverts to the original text otherwise, so a non-empty remote segment
text never becomes empty, and the mapping drops no segment (the output
has one detection per remote segment). -/
theorem claim8_clean_revert (s text : String) (segs : List EnhancedSegment) :
    ((cleanSegmentText s).length < 3 → chooseSegmentText s = s) ∧
    (3 ≤ (cleanSegmentText s).length → chooseSegmentText s = cleanSegmentText s) ∧
    (s ≠ "" → chooseSegmentText s ≠ "") ∧
    (analyzeTextEnvironments text (RemoteOutcome.ok segs)).length = segs.length := by
  refine ⟨fun h => ?_, fun h => ?_, fun hs => ?_, ?_⟩
  · simp only [chooseSegmentText]
    rw [if_pos h]
  · simp only [chooseSegmentText]
    rw [if_neg (by omega)]
  · simp only [chooseSegmentText]
    split
    · exact hs
    · rename_i h
      intro hc
      rw [hc] at h
      exact h (by decide)
  · show (attachTimings 0 (segs.map mkDetection)).length = segs.length
    rw [attachTimings_length, List.length_map]

/-- Witness for C8: `1. Elle sourit.` cleans to `Elle sourit` (kept);
`2.` cleans to the empty string, so the original text is restored and
stays non-empty. -/
theorem claim8_witness :
    (3 ≤ (cleanSegmentText "1. Elle sourit.").length ∧
      chooseSegmentText "1. Elle sourit." = cleanSegmentText "1. Elle sourit.") ∧
    ((cleanSegmentText "2.").length < 3 ∧ chooseSegmentText "2." = "2.") ∧
    ("2." ≠ "" ∧ chooseSegmentText "2." ≠ "") :=
  ⟨⟨by decide, (claim8_clean_revert "1. Elle sourit." "x" []).2.1 (by decide)⟩,
   ⟨by decide, (claim8_clean_revert "2." "x" []).1 (by decide)⟩,
   ⟨by decide, (claim8_clean_revert "2." "x" []).2.2.1 (by decide)⟩⟩

/-- Counterexample to claim C5 as stated: neither analysis path raises
anything on empty input — no `EmptyInputError` exists anywhere in the
code; the local fallback returns one segment holding the empty text,
and the remote-failure path returns one default segment. -/
theorem claim5_counterexample :
    (analyzeTextLocally "").length = 1 ∧
    ((analyzeTextLocally "").headD emptyDetection).segment = "" ∧
    (analyzeTextEnvironments "" (RemoteOutcome.httpError 500)).length = 1 := by
  refine ⟨by decide, by decide, by decide⟩

/-- Claim C5 as amended: for empty or whitespace-only input the pipeline
does not fail fast; it returns a single (meaningless) segment carrying
the original input text.  The only empty-input guard in the repository
sits in the UI (`App.tsx` line 155), before the pipeline is invoked. -/
theorem claim5_amended_no_failure :
    (analyzeTextLocally "   ").length = 1 ∧
    ((analyzeTextLocally "   ").headD emptyDetection).segment = "   " ∧
    ((analyzeTextLocally "").headD emptyDetection).segment = "" ∧
    ((analyzeTextEnvironments "" (RemoteOutcome.httpError 500)).headD emptyDetection).segment =
      "" ∧
    ((analyzeTextEnvironments "   " (RemoteOutcome.networkError)).headD emptyDetection).segment =
      "   " := by
  refine ⟨by decide, by decide, by decide, by decide, by decide⟩

/-- Counterexample to claim C6 as stated: on an HTTP error the adapter
does not fail and the local fallback is not invoked —
`analyzeTextWithGrok` swallows the error and returns its own default
segment, so for a text containing `plage` the pipeline output keeps the
default `chambre` environment while the local fallback would have
detected `plage`; the two outputs differ. -/
theorem claim6_counterexample :
    analyzeTextWithGrok "Nous marchons sur la plage" (RemoteOutcome.httpError 500) =
      [defaultSegment "Nous marchons sur la plage"] ∧
    ((analyzeTextEnvironments "Nous marchons sur la plage"
        (RemoteOutcome.httpError 500)).map (fun d => d.environment)) = ["chambre"] ∧
    ((analyzeTextLocally "Nous marchons sur la plage").map (fun d => d.environment)) =
      ["plage"] ∧
    ((analyzeTextEnvironments "Nous marchons sur la plage"
        (RemoteOutcome.httpError 500)).map (fun d => d.environment)) ≠
      ((analyzeTextLocally "Nous marchons sur la plage").map (fun d => d.environment)) := by
  refine ⟨rfl, by decide, by decide, by decide⟩

/-- Claim C6 as amended: on any remote failure (HTTP error, network
error, unparseable reply) `analyzeTextWithGrok` returns the single
default segment instead of propagating the failure, and the overall
output is a non-empty one-segment list carrying the default-tier
parameters (tone `sensuel`, rate `lent`, volume `normal`,
stability 0.65, similarity 0.8, speed `35%`, environment `chambre`). -/
theorem claim6_amended_default_segment (text : String) (o : RemoteOutcome)
    (h : o.isSuccess = false) :
    analyzeTextWithGrok text o = [defaultSegment text] ∧
    (analyzeTextEnvironments text o).length = 1 ∧
    ((analyzeTextEnvironments text o).headD emptyDetection).emotionalTone = "sensuel" ∧
    ((analyzeTextEnvironments text o).headD emptyDetection).speechRate = "lent" ∧
    ((analyzeTextEnvironments text o).headD emptyDetection).volume = "normal" ∧
    ((analyzeTextEnvironments text o).headD emptyDetection).elevenlabsParams.stability = 0.65 ∧
    ((analyzeTextEnvironments text o).headD emptyDetection).elevenlabsParams.similarity_boost =
      0.8 ∧
    ((analyzeTextEnvironments text o).headD emptyDetection).elevenlabsParams.speed = "35%" ∧
    ((analyzeTextEnvironments text o).headD emptyDetection).environment = "chambre" := by
  have hg : analyzeTextWithGrok text o = [defaultSegment text] := by
    cases o with
    | httpError s => rfl
    | networkError => rfl
    | invalidFormat => rfl
    | ok segments => simp [RemoteOutcome.isSuccess] at h
  have he : analyzeTextEnvironments text o =
      attachTimings 0 [mkDetection (defaultSegment text)] := by
    unfold analyzeTextEnvironments
    rw [hg]
    rfl
  refine ⟨hg, ?_, ?_, ?_, ?_, ?_, ?_, ?_, ?_⟩ <;> rw [he] <;> rfl

/-- Witness for the amended C6 at a concrete text and outcome. -/
theorem claim6_witness :
    RemoteOutcome.isSuccess (RemoteOutcome.httpError 503) = false ∧
    (analyzeTextWithGrok "Il entra sans bruit" (RemoteOutcome.httpError 503) =
      [defaultSegment "Il entra sans bruit"] ∧
    (analyzeTextEnvironments "Il entra sans bruit" (RemoteOutcome.httpError 503)).length = 1 ∧
    ((analyzeTextEnvironments "Il entra sans bruit"
        (RemoteOutcome.httpError 503)).headD emptyDetection).emotionalTone = "sensuel" ∧
    ((analyzeTextEnvironments "Il entra sans bruit"
        (RemoteOutcome.httpError 503)).headD emptyDetection).speechRate = "lent" ∧
    ((analyzeTextEnvironments "Il entra sans bruit"
        (RemoteOutcome.httpError 503)).headD emptyDetection).volume = "normal" ∧
    ((analyzeTextEnvironments "Il entra sans bruit"
        (RemoteOutcome.httpError 503)).headD emptyDetection).elevenlabsParams.stability = 0.65 ∧
    ((analyzeTextEnvironments "Il entra sans bruit"
        (RemoteOutcome.httpError 503)).headD emptyDetection).elevenlabsParams.similarity_boost =
      0.8 ∧
    ((analyzeTextEnvironments "Il entra sans bruit"
        (RemoteOutcome.httpError 503)).headD emptyDetection).elevenlabsParams.speed = "35%" ∧
    ((analyzeTextEnvironments "Il entra sans bruit"
        (RemoteOutcome.httpError 503)).headD emptyDetection).environment = "chambre") :=
  ⟨rfl, claim6_amended_default_segment "Il entra sans bruit" (RemoteOutcome.httpError 503) rfl⟩
